import Mathlib

/-
Shallow embedding of the session and authentication lifecycle of the
AndresKenji/task-management Angular frontend, together with theorems about
its behaviour.  The repository bundles several revisions of the same files:
auth.service.ts contains two revisions of AuthService (called variant A,
lines 9-193, and variant B, lines 202-438, below), and task.service.ts embeds
a third, older AuthService revision (called the embedded variant below).
State is the pair of the Credential Store (the localStorage access_token
slot) and the Session State (the BehaviorSubject current-user value).
Network completions are passed in as explicit parameters, and each operation
returns its final state together with the ordered trace of observable events
it produces.
-/

namespace TaskManager

/-- User record as in models/user.model.ts (fields relevant to the auth flow). -/
structure User where
  id : Nat
  username : String
  email : String
  full_name : String
  is_admin : Bool
  deriving DecidableEq

/-- Token response of POST /api/auth/token. -/
structure Token where
  access_token : String
  deriving DecidableEq

/-- Client-side auth state: the Credential Store (localStorage slot
access_token, a string or null) and the Session State (currentUserSubject
value, a User or null). -/
structure AuthState where
  token : Option String
  currentUser : Option User
  deriving DecidableEq

/-- The state with no stored token and no session. -/
def cleared : AuthState := { token := none, currentUser := none }

/-- JavaScript truthiness of a string-or-null value: null and the empty
string are falsy, every other string is truthy.  This is the presence check
the code performs with if (token). -/
def strTruthy : Option String → Bool
  | none => false
  | some s => s != ""

/-- Observable events of one operation, in program order. -/
inductive Ev where
  | post (path : String)
  | get (path : String)
  | tokenSave (t : String)
  | tokenRemove
  | sessionSet (u : Option User)
  | resolveOk (t : String)
  | resolveErr
  | navigate (route : String)
  | rethrow
  deriving DecidableEq

def isTokenRemove : Ev → Bool
  | .tokenRemove => true
  | _ => false

def isTokenSaveEv : Ev → Bool
  | .tokenSave _ => true
  | _ => false

def isSessionSetSome : Ev → Bool
  | .sessionSet (some _) => true
  | _ => false

def isResolveOk : Ev → Bool
  | .resolveOk _ => true
  | _ => false

def isResolveErr : Ev → Bool
  | .resolveErr => true
  | _ => false

def isNavLogin : Ev → Bool
  | .navigate r => r == "/login"
  | _ => false

def isRethrow : Ev → Bool
  | .rethrow => true
  | _ => false

def isServerLogoutPost : Ev → Bool
  | .post p => p == "/api/auth/logout"
  | _ => false

def isProfileGet : Ev → Bool
  | .get p => p == "/api/auth/users/me"
  | _ => false

/-- Whether the trace reports success to the caller (a next emission of the
returned observable). -/
def surfacedOk (l : List Ev) : Bool := l.any isResolveOk

/-- Whether the trace reports an error to the caller of the operation. -/
def surfacedErr (l : List Ev) : Bool := l.any isResolveErr

/-- Number of local clearings (localStorage.removeItem on access_token) in a
trace. -/
def clearCount (l : List Ev) : Nat := (l.filter isTokenRemove).length

/-- evBefore p q l holds when both an event satisfying p and one satisfying q
occur in l and the first p-event strictly precedes the first q-event. -/
def evBefore (p q : Ev → Bool) (l : List Ev) : Bool :=
  match l.findIdx? p, l.findIdx? q with
  | some i, some j => Nat.blt i j
  | _, _ => false

/-- localStorage.setItem for the access_token slot (setToken in the source). -/
def setToken (s : AuthState) (t : String) : AuthState := { s with token := some t }

/-- localStorage.removeItem for the access_token slot. -/
def removeToken (s : AuthState) : AuthState := { s with token := none }

/-- currentUserSubject.next. -/
def sessionNext (s : AuthState) (u : Option User) : AuthState := { s with currentUser := u }

/-- Trace of AuthService.logout, variant A (auth.service.ts lines 94-105) and
the embedded variant (task.service.ts): remove the token, set the session to
null, then unconditionally POST the server logout; the subscribe error
handler only logs, so a failure of that request is swallowed. -/
def logoutAEvents : List Ev :=
  [Ev.tokenRemove, Ev.sessionSet none, Ev.post "/api/auth/logout"]

/-- AuthService.logout, variant A (auth.service.ts lines 94-105); also the
embedded variant in task.service.ts, whose logout body is identical. -/
def logoutA (s : AuthState) : AuthState × List Ev :=
  (sessionNext (removeToken s) none, logoutAEvents)

/-- AuthService.logout, variant B (auth.service.ts lines 315-335): removes
the token and clears the session, then re-reads the access_token slot (which
the removal just emptied) and only issues the server logout request when that
re-read still finds a token, returning early otherwise.  The match below is
on the slot after removal, exactly as the code re-reads it. -/
def logoutB (s : AuthState) : AuthState × List Ev :=
  let s1 := sessionNext (removeToken s) none
  match s1.token with
  | none => (s1, [Ev.tokenRemove, Ev.sessionSet none])
  | some _ => (s1, [Ev.tokenRemove, Ev.sessionSet none, Ev.post "/api/auth/logout"])

/-- AuthService.login of auth.service.ts (both revisions share this body,
lines 44-71 and 265-292): POST the token request; on success save the token
(tap), then switchMap into getCurrentUser; on profile success set the session
and re-emit the token response to the caller; on profile failure catchError
runs this.logout() and rethrows the error to the caller.  doLogout is the
logout of the enclosing revision. -/
def loginPiped (doLogout : AuthState → AuthState × List Ev) (s : AuthState)
    (tokenResp : Except Unit Token) (profileResp : Except Unit User) :
    AuthState × List Ev :=
  match tokenResp with
  | .error _ => (s, [Ev.post "/api/auth/token", Ev.resolveErr])
  | .ok tok =>
    let s1 := setToken s tok.access_token
    match profileResp with
    | .ok u =>
      (sessionNext s1 (some u),
       [Ev.post "/api/auth/token", Ev.tokenSave tok.access_token,
        Ev.get "/api/auth/users/me", Ev.sessionSet (some u),
        Ev.resolveOk tok.access_token])
    | .error _ =>
      let r := doLogout s1
      (r.1,
       [Ev.post "/api/auth/token", Ev.tokenSave tok.access_token,
        Ev.get "/api/auth/users/me"] ++ r.2 ++ [Ev.resolveErr])

/-- login of AuthService variant A (auth.service.ts lines 44-71). -/
def loginA : AuthState → Except Unit Token → Except Unit User → AuthState × List Ev :=
  loginPiped logoutA

/-- login of AuthService variant B (auth.service.ts lines 265-292). -/
def loginB : AuthState → Except Unit Token → Except Unit User → AuthState × List Ev :=
  loginPiped logoutB

/-- login of the embedded AuthService (task.service.ts lines 112-131): the
tap handler saves the token and merely starts getCurrentUser through a nested
subscription, so the returned observable emits the token response to the
caller right away; the nested handler (set session on success, logout on
failure) runs when the fetch completes, after the caller has already been
resolved.  Its logout is the unconditional-post variant. -/
def loginEmbedded (s : AuthState) (tokenResp : Except Unit Token)
    (profileResp : Except Unit User) : AuthState × List Ev :=
  match tokenResp with
  | .error _ => (s, [Ev.post "/api/auth/token", Ev.resolveErr])
  | .ok tok =>
    let s1 := setToken s tok.access_token
    match profileResp with
    | .ok u =>
      (sessionNext s1 (some u),
       [Ev.post "/api/auth/token", Ev.tokenSave tok.access_token,
        Ev.get "/api/auth/users/me", Ev.resolveOk tok.access_token,
        Ev.sessionSet (some u)])
    | .error _ =>
      let r := logoutA s1
      (r.1,
       [Ev.post "/api/auth/token", Ev.tokenSave tok.access_token,
        Ev.get "/api/auth/users/me", Ev.resolveOk tok.access_token] ++ r.2)

/-- AuthService.loginWithCookie (auth.service.ts lines 73-92, same body in
both revisions and in the embedded variant): POST the cookie token request
(the server stores the credential in a cookie, nothing is written to the
Credential Store), then in tap start getCurrentUser through a nested
subscription which sets the session on success and runs logout on failure;
the observable emits the token-cookie response to the caller immediately. -/
def loginWithCookie (s : AuthState) (tokenResp : Except Unit Unit)
    (profileResp : Except Unit User) : AuthState × List Ev :=
  match tokenResp with
  | .error _ => (s, [Ev.post "/api/auth/token-cookie", Ev.resolveErr])
  | .ok _ =>
    match profileResp with
    | .ok u =>
      (sessionNext s (some u),
       [Ev.post "/api/auth/token-cookie", Ev.get "/api/auth/users/me",
        Ev.resolveOk "", Ev.sessionSet (some u)])
    | .error _ =>
      let r := logoutA s
      (r.1,
       [Ev.post "/api/auth/token-cookie", Ev.get "/api/auth/users/me",
        Ev.resolveOk ""] ++ r.2)

/-- AuthService.checkAuthToken (auth.service.ts lines 19-42 and 236-263,
also the constructor-time startup validation): read the token; when truthy,
fetch the profile and either set the session (success) or run logout
(failure); when falsy, set the session to null without any request. -/
def checkAuthToken (s : AuthState) (profileResp : Except Unit User) :
    AuthState × List Ev :=
  if strTruthy s.token then
    match profileResp with
    | .ok u =>
      (sessionNext s (some u), [Ev.get "/api/auth/users/me", Ev.sessionSet (some u)])
    | .error _ =>
      let r := logoutA s
      (r.1, [Ev.get "/api/auth/users/me"] ++ r.2)
  else
    (sessionNext s none, [Ev.sessionSet none])

/-- Result of the route guard check: the returned boolean, the navigation it
triggered (if any), and the HTTP requests it issued. -/
structure GuardResult where
  allowed : Bool
  navigatedTo : Option String
  requests : List Ev
  deriving DecidableEq

/-- AuthGuard.canActivate (src/unnamed/part_004 lines 15-32): read the token
and the current user value; when both are truthy return true, otherwise
navigate to /login and return false.  No HTTP request is issued either way. -/
def canActivate (s : AuthState) : GuardResult :=
  if strTruthy s.token && s.currentUser.isSome then
    { allowed := true, navigatedTo := none, requests := [] }
  else
    { allowed := false, navigatedTo := some "/login", requests := [] }

/-- JavaScript template-literal rendering of a string-or-null value: null
renders as the four characters null. -/
def jsInterp : Option String → String
  | none => "null"
  | some t => t

/-- AuthService.getAuthHeaders (auth.service.ts lines 125-131 and 360-366);
TaskService.getHeaders (task.service.ts lines 18-20) simply returns this. -/
def getAuthHeaders (token : Option String) : List (String × String) :=
  [("Authorization", "Bearer " ++ jsInterp token),
   ("Content-Type", "application/json")]

/-- TaskService.getHeaders delegates to AuthService.getAuthHeaders. -/
def taskServiceHeaders (token : Option String) : List (String × String) :=
  getAuthHeaders token

/-- HttpRequest.clone with setHeaders: overwrite the header when present,
append it otherwise. -/
def setHeader (hs : List (String × String)) (k v : String) : List (String × String) :=
  if hs.any (fun p => p.1 == k) then
    hs.map (fun p => if p.1 == k then (k, v) else p)
  else hs ++ [(k, v)]

/-- AuthInterceptor.intercept, request side (auth.interceptor.ts lines
16-29): when a token is truthy, clone the request setting Authorization and
the X-Requested-With marker; otherwise forward the request unmodified. -/
def interceptRequest (token : Option String) (hs : List (String × String)) :
    List (String × String) :=
  if strTruthy token then
    setHeader (setHeader hs "Authorization" ("Bearer " ++ jsInterp token))
      "X-Requested-With" "XMLHttpRequest"
  else hs

def lookupHeader (k : String) (hs : List (String × String)) : Option String :=
  Option.map (fun p => p.2) (hs.find? (fun p => p.1 == k))

/-- One run of the 401 branch of AuthInterceptor.intercept (auth.
interceptor.ts lines 33-40) with the variant A logout: logout (clear token,
clear session, POST the server logout), navigate to /login, rethrow the
original error to the subscriber. -/
def handler401A : List Ev := logoutAEvents ++ [Ev.navigate "/login", Ev.rethrow]

/-- Chained 401 handling with the variant A logout.  The server logout POST
issued by logout goes through the HttpClient and hence through the
interceptor itself; n counts how many successive 401 replies the server
gives to those chained logout requests, each reply running the 401 branch
again (the final logout request is answered with a non-401 or never). -/
def on401A : Nat → List Ev
  | 0 => handler401A
  | n + 1 => handler401A ++ on401A n

/-- The 401 branch of AuthInterceptor.intercept with the variant B logout:
logoutB issues no server request (see logoutB), so nothing is re-intercepted
and the handler runs exactly once. -/
def on401B : List Ev :=
  [Ev.tokenRemove, Ev.sessionSet none, Ev.navigate "/login", Ev.rethrow]

/-- Public operations of the auth lifecycle, each bundled with the network
completions that drive it; these are the operations claim C5 quantifies
over.  Task-CRUD and profile-update calls do not appear in that list. -/
inductive Op where
  | loginOk (t : String) (u : User)
  | loginProfileFail (t : String)
  | loginTokenFail
  | cookieLoginOk (u : User)
  | cookieLoginProfileFail
  | logoutCall
  | on401
  | startupOk (u : User)
  | startupFail
  deriving DecidableEq

/-- State effect of one public operation, built from the operation
embeddings above.  The local state effect of logout is identical in all
three source revisions, and the 401 interceptor branch clears state through
logout. -/
def step (s : AuthState) (op : Op) : AuthState :=
  match op with
  | .loginOk t u => (loginA s (.ok { access_token := t }) (.ok u)).1
  | .loginProfileFail t => (loginA s (.ok { access_token := t }) (.error ())).1
  | .loginTokenFail => (loginA s (.error ()) (.error ())).1
  | .cookieLoginOk u => (loginWithCookie s (.ok ()) (.ok u)).1
  | .cookieLoginProfileFail => (loginWithCookie s (.ok ()) (.error ())).1
  | .logoutCall => (logoutA s).1
  | .on401 => (logoutA s).1
  | .startupOk u => (checkAuthToken s (.ok u)).1
  | .startupFail => (checkAuthToken s (.error ())).1

/-- State after running a sequence of public operations. -/
def reach (s : AuthState) (ops : List Op) : AuthState := ops.foldl step s

/-- Session presence implies Credential presence (the invariant of claim
C5), as a boolean predicate. -/
def credBacked (s : AuthState) : Bool := s.currentUser.isNone || s.token.isSome

/-- True except on a cookie login whose profile fetch succeeds — the one
operation that populates Session State without writing the Credential
Store. -/
def Op.noCookieSuccess : Op → Bool
  | .cookieLoginOk _ => false
  | _ => true

/-- Bounded readiness timeout of the APP_INITIALIZER factory, in
milliseconds (app.module.ts line 94). -/
def initAuthTimeoutMs : Nat := 3000

/-- Outcome of the startup initializer: requests issued, whether the
readiness promise was resolved, and at which time (ms) it resolved. -/
structure InitRun where
  requests : List Ev
  readySignaled : Bool
  readyAt : Nat
  deriving DecidableEq

/-- initializeAuth APP_INITIALIZER factory (app.module.ts lines 66-97): when
the token is falsy, resolve immediately with no request; otherwise subscribe
getCurrentUser and register a 3000 ms timeout that also resolves, so the
promise resolves at the fetch completion or at the timeout, whichever is
first.  profileResp carries the completion time and result of the fetch, or
none when the fetch never completes.  The next handler only resolves (it
does not touch Session State); the error handler runs logout before
resolving. -/
def initAuth (s : AuthState) (profileResp : Option (Nat × Except Unit User)) :
    InitRun × AuthState :=
  if strTruthy s.token then
    match profileResp with
    | some (t, .ok _) =>
      ({ requests := [Ev.get "/api/auth/users/me"], readySignaled := true,
         readyAt := min t initAuthTimeoutMs }, s)
    | some (t, .error _) =>
      ({ requests := [Ev.get "/api/auth/users/me"], readySignaled := true,
         readyAt := min t initAuthTimeoutMs }, (logoutA s).1)
    | none =>
      ({ requests := [Ev.get "/api/auth/users/me"], readySignaled := true,
         readyAt := initAuthTimeoutMs }, s)
  else
    ({ requests := [], readySignaled := true, readyAt := 0 }, s)

/-- Password-change form of ProfileComponent (profile.component.ts). -/
structure PasswordForm where
  current_password : String
  new_password : String
  confirm_password : String
  deriving DecidableEq

/-- Outcome of ProfileComponent.changePassword: whether the HTTP request was
sent and the local validation error message, if any. -/
structure PasswordAttempt where
  sent : Bool
  errMsg : Option String
  deriving DecidableEq

/-- ProfileComponent.changePassword (profile.component.ts lines 99-137): the
request is only sent after three local checks, in this order — required
fields (JavaScript truthiness, so empty strings fail), confirmation match,
and minimum length 6 of the new password.  Auth state is never touched by
the validation path. -/
def changePassword (f : PasswordForm) (s : AuthState) : PasswordAttempt × AuthState :=
  if f.current_password == "" || f.new_password == "" then
    ({ sent := false, errMsg := some "Por favor, completa todos los campos" }, s)
  else if f.new_password != f.confirm_password then
    ({ sent := false, errMsg := some "Las contrasenas no coinciden" }, s)
  else if f.new_password.length < 6 then
    ({ sent := false,
       errMsg := some "La nueva contrasena debe tener al menos 6 caracteres" }, s)
  else
    ({ sent := true, errMsg := none }, s)

/-- Concrete user record used by witnesses and counterexamples. -/
def uDemo : User :=
  { id := 1, username := "ana", email := "ana@example.com",
    full_name := "Ana", is_admin := false }

theorem strTruthy_isSome (x : Option String) (h : strTruthy x = true) :
    x.isSome = true := by
  cases x with
  | none => exact absurd h (by simp [strTruthy])
  | some t => rfl

theorem clearCount_append (a b : List Ev) :
    clearCount (a ++ b) = clearCount a + clearCount b := by
  simp [clearCount, List.filter_append]

/-- C1 counterexample: in the embedded login variant (task.service.ts lines
112-131), a run whose token request succeeds and whose profile fetch fails
reports success to the caller and never surfaces the error, although the
final state is fully cleared; this falsifies the claim that the failure is
surfaced to the caller of login in every variant. -/
theorem C1_counterexample :
    surfacedErr (loginEmbedded cleared (Except.ok { access_token := "tok" })
      (Except.error ())).2 = false ∧
    surfacedOk (loginEmbedded cleared (Except.ok { access_token := "tok" })
      (Except.error ())).2 = true ∧
    (loginEmbedded cleared (Except.ok { access_token := "tok" })
      (Except.error ())).1 = cleared :=
  ⟨rfl, rfl, rfl⟩

/-- C1 amended: for both piped login variants of auth.service.ts, a token
success followed by a profile-fetch failure ends with the Credential Store
and Session State empty and the error surfaced to the caller, with no
success emission; the embedded variant in task.service.ts also ends with
both stores empty, but it reports success to the caller and never surfaces
the profile-fetch error. -/
theorem C1_loginRollback (s : AuthState) (tok : Token) :
    ((loginA s (.ok tok) (.error ())).1 = cleared ∧
     surfacedErr (loginA s (.ok tok) (.error ())).2 = true ∧
     surfacedOk (loginA s (.ok tok) (.error ())).2 = false) ∧
    ((loginB s (.ok tok) (.error ())).1 = cleared ∧
     surfacedErr (loginB s (.ok tok) (.error ())).2 = true ∧
     surfacedOk (loginB s (.ok tok) (.error ())).2 = false) ∧
    ((loginEmbedded s (.ok tok) (.error ())).1 = cleared ∧
     surfacedOk (loginEmbedded s (.ok tok) (.error ())).2 = true ∧
     surfacedErr (loginEmbedded s (.ok tok) (.error ())).2 = false) :=
  ⟨⟨rfl, rfl, rfl⟩, ⟨rfl, rfl, rfl⟩, ⟨rfl, rfl, rfl⟩⟩

/-- C2 counterexample: in the embedded login variant, a run in which both
the token request and the profile fetch succeed emits the success to the
caller before the Session State write, so the session-write
happens-before-resolution half of the claim fails on that variant. -/
theorem C2_counterexample :
    evBefore isSessionSetSome isResolveOk
      ((loginEmbedded cleared (Except.ok { access_token := "tok" })
        (Except.ok uDemo)).2) = false ∧
    ((loginEmbedded cleared (Except.ok { access_token := "tok" })
        (Except.ok uDemo)).2).any isSessionSetSome = true ∧
    ((loginEmbedded cleared (Except.ok { access_token := "tok" })
        (Except.ok uDemo)).2).any isResolveOk = true :=
  ⟨rfl, rfl, rfl⟩

/-- C2 amended: in every end-to-end successful login, the token write
precedes the profile-fetch request in all three variants; the Session State
write precedes the resolution to the caller in the two piped variants of
auth.service.ts, while in the embedded variant of task.service.ts the
resolution precedes the Session State write. -/
theorem C2_loginOrdering (s : AuthState) (tok : Token) (u : User) :
    (evBefore isTokenSaveEv isProfileGet (loginA s (.ok tok) (.ok u)).2 = true ∧
     evBefore isSessionSetSome isResolveOk (loginA s (.ok tok) (.ok u)).2 = true) ∧
    (evBefore isTokenSaveEv isProfileGet (loginB s (.ok tok) (.ok u)).2 = true ∧
     evBefore isSessionSetSome isResolveOk (loginB s (.ok tok) (.ok u)).2 = true) ∧
    (evBefore isTokenSaveEv isProfileGet (loginEmbedded s (.ok tok) (.ok u)).2 = true ∧
     evBefore isResolveOk isSessionSetSome (loginEmbedded s (.ok tok) (.ok u)).2 = true) :=
  ⟨⟨rfl, rfl⟩, ⟨rfl, rfl⟩, ⟨rfl, rfl⟩⟩

/-- C3 counterexample: with the variant A logout (auth.service.ts lines
94-105), the clearing path issues a server logout POST that goes back
through the interceptor; when the server answers that POST with a 401, the
local clearing runs twice for one original 401, falsifying the
cleared-exactly-once and never-re-intercepted parts of the claim. -/
theorem C3_counterexample :
    clearCount (on401A 1) = 2 ∧
    (on401A 0).any isServerLogoutPost = true :=
  ⟨rfl, rfl⟩

/-- C3 amended: on a 401 the interceptor clears local state, navigates to
/login and re-raises the error.  With the variant B logout no server request
is issued, so clearing runs exactly once and nothing is re-intercepted.
With the variant A logout the clearing path posts a server logout that is
itself intercepted: n successive 401 replies to those chained posts produce
n+1 clearings, so the clearing is idempotent on local state but not
one-shot. -/
theorem C3_on401Clearing :
    (∀ n, clearCount (on401A n) = n + 1) ∧
    clearCount on401B = 1 ∧
    on401B.any isNavLogin = true ∧
    on401B.any isRethrow = true ∧
    on401B.any isServerLogoutPost = false := by
  refine ⟨?_, rfl, rfl, rfl, rfl⟩
  intro n
  induction n with
  | zero => rfl
  | succ k ih =>
    have h1 : clearCount handler401A = 1 := rfl
    calc clearCount (on401A (k + 1))
        = clearCount (handler401A ++ on401A k) := rfl
      _ = clearCount handler401A + clearCount (on401A k) := clearCount_append _ _
      _ = 1 + (k + 1) := by rw [h1, ih]
      _ = k + 1 + 1 := by omega

/-- C4 evaluation at the failing input: logout variant B called while the
token tok is stored never attempts the server-side logout (it re-reads the
slot only after emptying it), although it does clear locally; and logout
variant A attempts the server call even when no credential is present.  Both
directions of the claimed if-and-only-if fail on the code. -/
theorem C4_serverLogoutSkipped :
    ((logoutB { token := some "tok", currentUser := some uDemo }).2.any
      isServerLogoutPost = false) ∧
    (logoutB { token := some "tok", currentUser := some uDemo }).1 = cleared ∧
    (logoutA cleared).2.any isServerLogoutPost = true :=
  ⟨rfl, rfl, rfl⟩

theorem credBacked_step (s : AuthState) (op : Op)
    (hop : Op.noCookieSuccess op = true) (hs : credBacked s = true) :
    credBacked (step s op) = true := by
  cases op with
  | loginOk t u => rfl
  | loginProfileFail t => rfl
  | loginTokenFail => exact hs
  | cookieLoginOk u => exact absurd hop (by simp [Op.noCookieSuccess])
  | cookieLoginProfileFail => rfl
  | logoutCall => rfl
  | on401 => rfl
  | startupOk u =>
    show credBacked (checkAuthToken s (.ok u)).1 = true
    by_cases h : strTruthy s.token = true
    · have hsome := strTruthy_isSome s.token h
      simp [checkAuthToken, h, sessionNext, credBacked, hsome]
    · simp [checkAuthToken, h, sessionNext, credBacked]
  | startupFail =>
    show credBacked (checkAuthToken s (.error ())).1 = true
    by_cases h : strTruthy s.token = true
    · simp [checkAuthToken, h, logoutA, sessionNext, removeToken, credBacked]
    · simp [checkAuthToken, h, sessionNext, credBacked]

theorem credBacked_reach (s : AuthState) (ops : List Op)
    (hops : ops.all Op.noCookieSuccess = true) (hs : credBacked s = true) :
    credBacked (reach s ops) = true := by
  induction ops generalizing s with
  | nil => exact hs
  | cons op rest ih =>
    simp only [List.all_cons, Bool.and_eq_true] at hops
    exact ih (step s op) hops.2 (credBacked_step s op hops.1 hs)

/-- C5 counterexample: a successful loginWithCookie populates Session State
without ever writing the Credential Store, so one step from the cold-start
state reaches a state with a session and no credential, falsifying the
session-implies-credential invariant over the operations the claim lists. -/
theorem C5_counterexample :
    (reach cleared [Op.cookieLoginOk uDemo]).currentUser.isSome = true ∧
    (reach cleared [Op.cookieLoginOk uDemo]).token = none :=
  ⟨rfl, rfl⟩

/-- C5 amended: starting from any session-free state (possibly with a stale
stored token), every state reachable through the public operations except a
successful loginWithCookie — login in all outcomes, failed cookie login,
logout, 401 interception, startup validation — satisfies the invariant that
session presence implies credential presence. -/
theorem C5_invariant (t0 : Option String) (ops : List Op)
    (h : ops.all Op.noCookieSuccess = true) :
    credBacked (reach { token := t0, currentUser := none } ops) = true :=
  credBacked_reach { token := t0, currentUser := none } ops h rfl

/-- C5 witness: the amended invariant applied to a concrete run consisting
of a successful login followed by a logout. -/
theorem C5_invariant_witness :
    ([Op.loginOk "tok" uDemo, Op.logoutCall].all Op.noCookieSuccess = true) ∧
    credBacked (reach { token := none, currentUser := none }
      [Op.loginOk "tok" uDemo, Op.logoutCall]) = true :=
  ⟨rfl, C5_invariant none [Op.loginOk "tok" uDemo, Op.logoutCall] rfl⟩

/-- C6: the route guard returns true exactly when both the stored token and
the current user are present (present in the sense of the truthiness check
the code performs, under which null and the empty string are absent); on
denial it navigates to /login, and it never issues a network request. -/
theorem C6_canActivate (s : AuthState) :
    (canActivate s).allowed = (strTruthy s.token && s.currentUser.isSome) ∧
    (canActivate s).navigatedTo =
      (if strTruthy s.token && s.currentUser.isSome then none else some "/login") ∧
    (canActivate s).requests = [] := by
  cases h : strTruthy s.token && s.currentUser.isSome <;> simp [canActivate, h]

/-- C7: both logout variants clear the Credential Store and the Session
State from every starting state, including states with no stored credential,
and running logout again on the cleared state leaves it unchanged. -/
theorem C7_logoutClears (s : AuthState) :
    (logoutA s).1 = cleared ∧ (logoutB s).1 = cleared ∧
    (logoutA (logoutA s).1).1 = (logoutA s).1 ∧
    (logoutB (logoutB s).1).1 = (logoutB s).1 :=
  ⟨rfl, rfl, rfl, rfl⟩

/-- C8: when a credential is stored and the startup profile fetch never
completes, the APP_INITIALIZER promise still resolves, exactly at the
3000 ms timeout, after issuing the single profile request; the state is
left untouched. -/
theorem C8_startupTimeout (s : AuthState) (h : strTruthy s.token = true) :
    (initAuth s none).1.readySignaled = true ∧
    (initAuth s none).1.readyAt = initAuthTimeoutMs ∧
    (initAuth s none).1.requests = [Ev.get "/api/auth/users/me"] ∧
    (initAuth s none).2 = s := by
  simp [initAuth, h]

/-- C8 witness: the timeout theorem applied to the concrete state holding
the token tok with an unresolved fetch. -/
theorem C8_startupTimeout_witness :
    strTruthy (some "tok") = true ∧
    ((initAuth { token := some "tok", currentUser := none } none).1.readySignaled = true ∧
     (initAuth { token := some "tok", currentUser := none } none).1.readyAt = initAuthTimeoutMs ∧
     (initAuth { token := some "tok", currentUser := none } none).1.requests =
       [Ev.get "/api/auth/users/me"] ∧
     (initAuth { token := some "tok", currentUser := none } none).2 =
       { token := some "tok", currentUser := none }) :=
  ⟨rfl, C8_startupTimeout { token := some "tok", currentUser := none } rfl⟩

/-- C9: whenever the new password is shorter than 6 characters or differs
from the confirmation value, ProfileComponent.changePassword never sends the
request, sets a local validation error, and leaves the auth state
unchanged. -/
theorem C9_passwordValidation (f : PasswordForm) (s : AuthState)
    (h : f.new_password.length < 6 ∨ f.new_password ≠ f.confirm_password) :
    (changePassword f s).1.sent = false ∧
    (changePassword f s).1.errMsg.isSome = true ∧
    (changePassword f s).2 = s := by
  by_cases h1 : (f.current_password == "" || f.new_password == "") = true
  · simp [changePassword, h1]
  · by_cases h2 : (f.new_password != f.confirm_password) = true
    · simp [changePassword, h1, h2]
    · by_cases h3 : f.new_password.length < 6
      · simp [changePassword, h1, h2, h3]
      · exfalso
        rcases h with h | h
        · exact h3 h
        · have heq : f.new_password = f.confirm_password := by
            simp only [bne_iff_ne, not_not] at h2
            exact h2
          exact h heq

/-- C9 witness: the validation theorem applied to a concrete form whose new
password has length 3. -/
theorem C9_passwordValidation_witness :
    (("abc" : String).length < 6 ∨ ("abc" : String) ≠ ("abc" : String)) ∧
    ((changePassword
        { current_password := "a", new_password := "abc", confirm_password := "abc" }
        cleared).1.sent = false ∧
     (changePassword
        { current_password := "a", new_password := "abc", confirm_password := "abc" }
        cleared).1.errMsg.isSome = true ∧
     (changePassword
        { current_password := "a", new_password := "abc", confirm_password := "abc" }
        cleared).2 = cleared) :=
  ⟨Or.inl (by decide),
   C9_passwordValidation
     { current_password := "a", new_password := "abc", confirm_password := "abc" }
     cleared (Or.inl (by decide))⟩

/-- C10: a request built through getAuthHeaders while no credential is
stored carries the literal Authorization value Bearer null and a
Content-Type header, and the interceptor (whose truthiness check fails on a
null token) forwards it unchanged, without the X-Requested-With marker;
TaskService.getHeaders produces the same headers. -/
theorem C10_bearerNullHeaders :
    interceptRequest none (getAuthHeaders none) =
      [("Authorization", "Bearer null"), ("Content-Type", "application/json")] ∧
    lookupHeader "Authorization" (interceptRequest none (getAuthHeaders none)) =
      some "Bearer null" ∧
    lookupHeader "X-Requested-With" (interceptRequest none (getAuthHeaders none)) =
      none ∧
    lookupHeader "Content-Type" (interceptRequest none (getAuthHeaders none)) =
      some "application/json" ∧
    taskServiceHeaders none = getAuthHeaders none :=
  ⟨rfl, rfl, rfl, rfl, rfl⟩

end TaskManager
